import Mathlib

/-!
Verification of the system-monitor terminal dashboard (Rust sources
src/src/lib.rs and src/src/main.rs) against its natural-language
specification.

Shallow embedding conventions:
* Rust `f32` values are modelled exactly, as the inductive `F32` below:
  either a finite rational value or one of the IEEE special outcomes
  (`nan`, `posInf`, `negInf`) that the source's division can produce.
  All finite arithmetic in the source (sums, division, multiplication by
  100, integer casts) is exact at the inputs the claims exercise, so the
  rational model is faithful there.
* The `sysinfo::System` provider handle is modelled by its observable
  readings: the per-core utilization list and the total/used memory byte
  counts.  Refresh operations re-query the outside world; the fresh
  readings are therefore passed in as explicit arguments.
* Fallible terminal operations in `main` are modelled by booleans saying
  whether each external call succeeds, and the performed terminal
  operations are recorded in a trace.
-/

namespace SystemMonitor

/-- Exact model of a Rust `f32` result: a finite rational value, or one of
the special outcomes NaN / +∞ / −∞ that division by zero produces. -/
inductive F32 where
  | nan : F32
  | posInf : F32
  | negInf : F32
  | val : ℚ → F32
deriving DecidableEq, Repr

/-- IEEE-754 division for the finite operands appearing in the source:
`0/0` is NaN, `a/0` for `a ≠ 0` is a signed infinity, otherwise the exact
quotient. -/
def fdiv (a b : ℚ) : F32 :=
  if b = 0 then
    if a = 0 then F32.nan else if 0 < a then F32.posInf else F32.negInf
  else
    F32.val (a / b)

/-- Multiplication of an `f32` result by the literal `100.0`
(`(used / total) * 100.0` in `get_memory_usage`): NaN and the infinities
are absorbing, finite values are scaled exactly. -/
def fmul100 : F32 → F32
  | F32.nan => F32.nan
  | F32.posInf => F32.posInf
  | F32.negInf => F32.negInf
  | F32.val q => F32.val (q * 100)

/-- Rust's saturating `as u16` cast of an `f32` (used in `ui` as
`cpu_usage as u16` / `memory_usage as u16`): NaN casts to 0, the value is
truncated toward zero and saturated into the `u16` range `[0, 65535]`. -/
def f32ToU16 : F32 → ℕ
  | F32.nan => 0
  | F32.posInf => 65535
  | F32.negInf => 0
  | F32.val q => min (Int.toNat ⌊q⌋) 65535

/-- The `sysinfo::System` provider handle (field `system` of `App` in
src/src/lib.rs), modelled by its observable readings: the list of
per-core utilization percentages (`cpus()[i].cpu_usage()`) and the
total/used physical memory in bytes (`total_memory()` / `used_memory()`). -/
structure System where
  cpus : List ℚ
  totalMemory : ℕ
  usedMemory : ℕ
deriving DecidableEq, Repr

/-- `App` (src/src/lib.rs): the application state wrapping the provider
handle. -/
structure App where
  system : System
deriving DecidableEq, Repr

/-- `System::refresh_cpu` re-queries the OS for per-core utilization; the
fresh per-core readings come from the outside world and replace the
cached ones.  Memory readings are untouched. -/
def refreshCpu (s : System) (freshCpus : List ℚ) : System :=
  ⟨freshCpus, s.totalMemory, s.usedMemory⟩

/-- `System::refresh_all` (called by `App::update`) re-queries CPU and
memory state; all readings are replaced by fresh ones from the outside
world. -/
def refreshAll (s : System) (freshCpus : List ℚ)
    (freshTotal freshUsed : ℕ) : System :=
  ⟨freshCpus, freshTotal, freshUsed⟩

/-- `App::update` (src/src/lib.rs lines 91-93): `self.system.refresh_all()`. -/
def App.update (a : App) (freshCpus : List ℚ)
    (freshTotal freshUsed : ℕ) : App :=
  ⟨refreshAll a.system freshCpus freshTotal freshUsed⟩

/-- `App::get_cpu_usage` (src/src/lib.rs lines 109-117):
`self.system.refresh_cpu()` followed by
`cpus().iter().map(|cpu| cpu.cpu_usage()).sum::<f32>() / cpus().len() as f32`.
Returns the computed percentage together with the mutated `App`
(the method takes `&mut self`). -/
def App.get_cpu_usage (a : App) (freshCpus : List ℚ) : F32 × App :=
  let s := refreshCpu a.system freshCpus
  (fdiv s.cpus.sum (s.cpus.length : ℚ), ⟨s⟩)

/-- `App::get_memory_usage` (src/src/lib.rs lines 133-137):
`(used_memory as f32 / total_memory as f32) * 100.0`.  The method takes
`&mut self` but performs no refresh and no mutation, so the returned
`App` is the input. -/
def App.get_memory_usage (a : App) : F32 × App :=
  (fmul100 (fdiv (a.system.usedMemory : ℚ) (a.system.totalMemory : ℚ)), a)

/-- A rectangle of terminal character cells (`tui::layout::Rect`). -/
structure Rect where
  x : ℕ
  y : ℕ
  width : ℕ
  height : ℕ
deriving DecidableEq, Repr

/-- Modelled from the spec: the layout solver behind
`Layout::default().direction(Direction::Vertical)
.constraints([Constraint::Length(2), Constraint::Ratio(1,2), Constraint::Ratio(1,2)])
.split(area)` invoked by `ui` (src/src/main.rs lines 94-101) lives in the
external `tui` crate and is not part of this repository's sources.  Its
partition rule is taken from the spec, section 4.2: the title region gets
a fixed height of 2 cells clamped to the screen height, and the remaining
height `R` is split as `height(Region2) = ceil(R/2)` and
`height(Region3) = R - height(Region2)`; all three regions take the full
width and are stacked contiguously from the top. -/
def splitLayout (area : Rect) : Rect × Rect × Rect :=
  let titleH := min 2 area.height
  let r := area.height - titleH
  let h2 := (r + 1) / 2
  let h3 := r - h2
  (⟨area.x, area.y, area.width, titleH⟩,
   ⟨area.x, area.y + titleH, area.width, h2⟩,
   ⟨area.x, area.y + titleH + h2, area.width, h3⟩)

/-- The observable output of one call to `ui` (src/src/main.rs lines
93-130): the three regions handed to `render_widget`, and the `u16`
percentages handed to `Gauge::percent` for the CPU and memory gauges. -/
structure UIFrame where
  titleRegion : Rect
  cpuRegion : Rect
  memRegion : Rect
  cpuPercent : ℕ
  memPercent : ℕ
deriving DecidableEq, Repr

/-- `ui` (src/src/main.rs lines 93-130): split the frame area into three
regions, render the title, then render the CPU gauge with
`app.get_cpu_usage() as u16` and the memory gauge with
`app.get_memory_usage() as u16`.  `freshCpus` is the per-core reading the
provider supplies to the CPU refresh inside `get_cpu_usage`. -/
def ui (frameSize : Rect) (a : App) (freshCpus : List ℚ) : UIFrame × App :=
  let chunks := splitLayout frameSize
  let cpu := a.get_cpu_usage freshCpus
  let mem := cpu.2.get_memory_usage
  (⟨chunks.1, chunks.2.1, chunks.2.2, f32ToU16 cpu.1, f32ToU16 mem.1⟩, mem.2)

/-- A terminal event delivered by `crossterm::event::read` in `run_app`:
a key press, or any non-key event (resize, mouse, ...). -/
inductive Ev where
  | key : Char → Ev
  | other : Ev
deriving DecidableEq, Repr

/-- How an execution of the `run_app` loop ends, given the finite list of
events that ever arrive: `quit` when a `'q'` key press makes the loop
return `Ok(())`; `blocked` when the pending events run out and the loop
is stuck inside the blocking `event::read()` call. -/
inductive Outcome where
  | quit : Outcome
  | blocked : Outcome
deriving DecidableEq, Repr

/-- Observable record of a `run_app` execution: how many times
`terminal.draw` ran, how many times `app.update` ran, and how the
execution ended. -/
structure Trace where
  draws : ℕ
  updates : ℕ
  outcome : Outcome
deriving DecidableEq, Repr

/-- `run_app` (src/src/main.rs lines 65-78), run against the finite list
of events that will arrive on the terminal, with running counts of draws
and updates.  Each iteration first calls `terminal.draw`, then blocks in
`event::read()`: when an event is pending it is consumed, a `'q'` key
press returns `Ok(())` immediately, and any other event falls through to
`app.update()` and the 250 ms sleep before the next iteration.  When no
event is pending the iteration is stuck inside `event::read()`
(`Outcome.blocked`): the read has no timeout, so nothing else happens. -/
def runApp : List Ev → ℕ → ℕ → Trace
  | [], d, u => ⟨d + 1, u, Outcome.blocked⟩
  | e :: rest, d, u =>
    if e = Ev.key 'q' then ⟨d + 1, u, Outcome.quit⟩
    else runApp rest (d + 1) (u + 1)

/-- The terminal operations `main` (src/src/main.rs lines 370-389) can
invoke, in source order: `enable_raw_mode`, `execute!(EnterAlternateScreen)`,
`Terminal::new`, the `run_app` loop, `disable_raw_mode`,
`execute!(LeaveAlternateScreen)`, `terminal.show_cursor`. -/
inductive Step where
  | enableRaw : Step
  | enterAlt : Step
  | newTerminal : Step
  | runLoop : Step
  | disableRaw : Step
  | leaveAlt : Step
  | showCursor : Step
deriving DecidableEq, Repr

/-- The behaviour of the external world during one run of `main`: whether
each fallible terminal call succeeds, and whether `run_app` returns
`Ok(())` (clean quit) or an `io::Error` (a drawing or event-read
failure). -/
structure World where
  enableRawOk : Bool
  enterAltOk : Bool
  newTerminalOk : Bool
  runAppOk : Bool
  disableRawOk : Bool
  leaveAltOk : Bool
  showCursorOk : Bool
deriving DecidableEq, Repr

/-- Result of a run of `main`: the terminal operations invoked, in order,
and the process exit code (0 when `main` returns `Ok`, 1 when it returns
`Err`). -/
structure MainResult where
  trace : List Step
  exitCode : ℕ
deriving DecidableEq, Repr

/-- `main` (src/src/main.rs lines 370-389).  Setup propagates failures
immediately with `?`.  The `run_app` result is captured in `result`
rather than propagated, so the three teardown calls run regardless of it;
each teardown call still uses `?`, so a teardown failure ends `main`
there.  Finally `result` itself is returned, mapped into `Box<dyn Error>`. -/
def mainRun (w : World) : MainResult :=
  if !w.enableRawOk then ⟨[Step.enableRaw], 1⟩
  else if !w.enterAltOk then ⟨[Step.enableRaw, Step.enterAlt], 1⟩
  else if !w.newTerminalOk then
    ⟨[Step.enableRaw, Step.enterAlt, Step.newTerminal], 1⟩
  else if !w.disableRawOk then
    ⟨[Step.enableRaw, Step.enterAlt, Step.newTerminal, Step.runLoop,
      Step.disableRaw], 1⟩
  else if !w.leaveAltOk then
    ⟨[Step.enableRaw, Step.enterAlt, Step.newTerminal, Step.runLoop,
      Step.disableRaw, Step.leaveAlt], 1⟩
  else if !w.showCursorOk then
    ⟨[Step.enableRaw, Step.enterAlt, Step.newTerminal, Step.runLoop,
      Step.disableRaw, Step.leaveAlt, Step.showCursor], 1⟩
  else
    ⟨[Step.enableRaw, Step.enterAlt, Step.newTerminal, Step.runLoop,
      Step.disableRaw, Step.leaveAlt, Step.showCursor],
     if w.runAppOk then 0 else 1⟩

/-- Claim C1: for every screen rectangle of width W and height H up to
the u16 maximum, the layout computed each tick is three vertically
stacked regions whose heights sum exactly to H, all of width W, with
y-offsets starting at 0 and contiguous, hence no overlap and no gap. -/
theorem layout_tiles_exactly (W H : ℕ) (hW : W ≤ 65535) (hH : H ≤ 65535) :
    (splitLayout ⟨0, 0, W, H⟩).1.height + (splitLayout ⟨0, 0, W, H⟩).2.1.height
        + (splitLayout ⟨0, 0, W, H⟩).2.2.height = H
    ∧ (splitLayout ⟨0, 0, W, H⟩).1.width = W
    ∧ (splitLayout ⟨0, 0, W, H⟩).2.1.width = W
    ∧ (splitLayout ⟨0, 0, W, H⟩).2.2.width = W
    ∧ (splitLayout ⟨0, 0, W, H⟩).1.y = 0
    ∧ (splitLayout ⟨0, 0, W, H⟩).2.1.y
        = (splitLayout ⟨0, 0, W, H⟩).1.y + (splitLayout ⟨0, 0, W, H⟩).1.height
    ∧ (splitLayout ⟨0, 0, W, H⟩).2.2.y
        = (splitLayout ⟨0, 0, W, H⟩).2.1.y + (splitLayout ⟨0, 0, W, H⟩).2.1.height := by
  simp only [splitLayout]
  refine ⟨?_, ?_, ?_, ?_, ?_, ?_, ?_⟩ <;> first
  | trivial
  | omega

/-- Witness for C1 at the 80 by 24 screen of the end-to-end scenario. -/
theorem layout_tiles_exactly_witness :
    (splitLayout ⟨0, 0, 80, 24⟩).1.height + (splitLayout ⟨0, 0, 80, 24⟩).2.1.height
        + (splitLayout ⟨0, 0, 80, 24⟩).2.2.height = 24
    ∧ (splitLayout ⟨0, 0, 80, 24⟩).1.y = 0 := by
  have h := layout_tiles_exactly 80 24 (by norm_num) (by norm_num)
  exact ⟨h.1, h.2.2.2.2.1⟩

/-- Claim C2: the partition rule gives title height `min 2 H`, the
remaining height `R = H - min 2 H` split as `ceil(R/2)` (that is,
`(R+1)/2` in natural division) for the CPU region and the rest for the
memory region, so the two gauge heights differ by at most 1; for `H < 2`
both gauge regions have height 0 and still width W, and the (total)
partition function cannot panic. -/
theorem layout_partition_rule (W H : ℕ) :
    (splitLayout ⟨0, 0, W, H⟩).1.height = min 2 H
    ∧ (splitLayout ⟨0, 0, W, H⟩).2.1.height = (H - min 2 H + 1) / 2
    ∧ (splitLayout ⟨0, 0, W, H⟩).2.2.height
        = H - min 2 H - (H - min 2 H + 1) / 2
    ∧ (splitLayout ⟨0, 0, W, H⟩).2.2.height ≤ (splitLayout ⟨0, 0, W, H⟩).2.1.height
    ∧ (splitLayout ⟨0, 0, W, H⟩).2.1.height
        ≤ (splitLayout ⟨0, 0, W, H⟩).2.2.height + 1
    ∧ (H < 2 →
        (splitLayout ⟨0, 0, W, H⟩).1.height = H
        ∧ (splitLayout ⟨0, 0, W, H⟩).2.1.height = 0
        ∧ (splitLayout ⟨0, 0, W, H⟩).2.2.height = 0
        ∧ (splitLayout ⟨0, 0, W, H⟩).2.1.width = W
        ∧ (splitLayout ⟨0, 0, W, H⟩).2.2.width = W) := by
  simp only [splitLayout]
  refine ⟨?_, ?_, ?_, ?_, ?_, fun hH => ⟨?_, ?_, ?_, ?_, ?_⟩⟩ <;> first
  | trivial
  | omega

/-- Witness for C2 at W = 7, H = 1: the title is clamped to height 1 and
both gauge regions collapse to height 0 with width 7. -/
theorem layout_partition_rule_witness :
    (splitLayout ⟨0, 0, 7, 1⟩).1.height = 1
    ∧ (splitLayout ⟨0, 0, 7, 1⟩).2.1.height = 0
    ∧ (splitLayout ⟨0, 0, 7, 1⟩).2.2.height = 0
    ∧ (splitLayout ⟨0, 0, 7, 1⟩).2.1.width = 7 := by
  have h := (layout_partition_rule 7 1).2.2.2.2.2 (by norm_num)
  exact ⟨h.1, h.2.1, h.2.2.1, h.2.2.2.1⟩

/-- Claim C3 counterexample: the display step does not round to the
nearest integer and does not clamp into [0, 100].  With a CPU reading of
43/4 = 10.75 percent the gauge displays 10 while rounding to nearest
gives 11; with a memory reading of 150 percent (used = 3, total = 2
bytes) the gauge displays 150, outside [0, 100]. -/
theorem display_rounding_clamp_cex :
    (ui ⟨0, 0, 80, 24⟩ ⟨⟨[], 400, 43⟩⟩ [(43 : ℚ) / 4]).1.cpuPercent = 10
    ∧ round ((43 : ℚ) / 4) = 11
    ∧ (ui ⟨0, 0, 80, 24⟩ ⟨⟨[], 2, 3⟩⟩ [(150 : ℚ)]).1.memPercent = 150
    ∧ ¬ (ui ⟨0, 0, 80, 24⟩ ⟨⟨[], 2, 3⟩⟩ [(150 : ℚ)]).1.memPercent ≤ 100 := by
  refine ⟨?_, ?_, ?_, ?_⟩
  · norm_num [ui, App.get_cpu_usage, refreshCpu, fdiv, f32ToU16]
    decide
  · rw [round_eq]
    norm_num
  · norm_num [ui, App.get_cpu_usage, App.get_memory_usage, refreshCpu, fdiv,
      fmul100, f32ToU16]
    decide
  · norm_num [ui, App.get_cpu_usage, App.get_memory_usage, refreshCpu, fdiv,
      fmul100, f32ToU16]

/-- Claim C3 (amended): at the display step of every tick, each gauge's
displayed percent is the Sampler's reading converted by the saturating
`as u16` cast: truncated toward zero and clamped into [0, 65535] (NaN
and negative readings display as 0, readings above 65535 display as
65535); readings between 100 and 65535 pass through unclamped, so the
display layer does not clamp into [0, 100], but the cast itself is total
and never fatal. -/
theorem display_truncation_saturation (W H : ℕ) (a : App) (freshCpus : List ℚ) :
    (ui ⟨0, 0, W, H⟩ a freshCpus).1.cpuPercent
        = f32ToU16 (a.get_cpu_usage freshCpus).1
    ∧ (ui ⟨0, 0, W, H⟩ a freshCpus).1.memPercent = f32ToU16 a.get_memory_usage.1
    ∧ (∀ v : F32, f32ToU16 v ≤ 65535)
    ∧ (∀ q : ℚ, 0 ≤ q → q ≤ 65535 → f32ToU16 (F32.val q) = Int.toNat ⌊q⌋) := by
  refine ⟨rfl, rfl, ?_, ?_⟩
  · intro v
    cases v <;> simp [f32ToU16]
  · intro q hq0 hq1
    have hfloor : ⌊q⌋ ≤ 65535 := by
      have := Int.floor_le_floor (α := ℚ) hq1
      simpa using this
    simp only [f32ToU16]
    omega

/-- Witness for C3 (amended) at the 10.75 percent CPU reading. -/
theorem display_truncation_saturation_witness :
    (ui ⟨0, 0, 80, 24⟩ ⟨⟨[], 400, 43⟩⟩ [(43 : ℚ) / 4]).1.cpuPercent
        = f32ToU16 ((⟨⟨[], 400, 43⟩⟩ : App).get_cpu_usage [(43 : ℚ) / 4]).1
    ∧ f32ToU16 (F32.val ((43 : ℚ) / 4)) = Int.toNat ⌊(43 : ℚ) / 4⌋ := by
  have h := display_truncation_saturation 80 24 ⟨⟨[], 400, 43⟩⟩ [(43 : ℚ) / 4]
  exact ⟨h.1, h.2.2.2 ((43 : ℚ) / 4) (by norm_num) (by norm_num)⟩

/-- Claim C4 (code bug evaluation): with a provider reporting zero
logical cores, `get_cpu_usage` silently returns NaN (`0.0 / 0.0`), and
with zero total memory `get_memory_usage` silently returns NaN (when
used = 0) or +∞ (when used > 0); no fatal configuration error is
signalled — the functions return `f32`, with no error channel at all. -/
theorem zero_cores_zero_total_silent :
    ((⟨⟨[7], 8, 2⟩⟩ : App).get_cpu_usage []).1 = F32.nan
    ∧ ((⟨⟨[], 0, 0⟩⟩ : App).get_memory_usage).1 = F32.nan
    ∧ ((⟨⟨[], 0, 5⟩⟩ : App).get_memory_usage).1 = F32.posInf := by
  refine ⟨?_, ?_, ?_⟩ <;>
    norm_num [App.get_cpu_usage, App.get_memory_usage, refreshCpu, fdiv, fmul100]

/-- Claim C5 (code bug evaluation): `run_app` waits in `event::read()`
with no timeout.  When no keyboard event ever arrives, the loop performs
the first draw and then blocks forever: no update (sampling) and no
further draw occur, contradicting the claimed bounded-timeout wait that
would let the tick proceed without input. -/
theorem no_event_blocks_loop :
    runApp [] 0 0 = ⟨1, 0, Outcome.blocked⟩ := rfl

/-- Claim C6: in state Running, a pending `'q'` key press makes the loop
return immediately — the resulting trace has exactly the draws performed
so far plus the one draw of the current tick, independent of any later
events, so no further draw occurs; any pending non-`'q'` event leaves
the loop running and it proceeds to the next tick with one more draw and
one more update. -/
theorem quit_and_nonquit_transitions (rest : List Ev) (d u : ℕ) (e : Ev)
    (hne : e ≠ Ev.key 'q') :
    runApp (Ev.key 'q' :: rest) d u = ⟨d + 1, u, Outcome.quit⟩
    ∧ runApp (e :: rest) d u = runApp rest (d + 1) (u + 1) := by
  constructor
  · simp [runApp]
  · simp [runApp, hne]

/-- Witness for C6: a pending `'q'` quits after the current draw, and a
pending `'x'` continues into the next tick. -/
theorem quit_and_nonquit_transitions_witness :
    runApp [Ev.key 'q'] 0 0 = ⟨1, 0, Outcome.quit⟩
    ∧ runApp [Ev.key 'x'] 0 0 = runApp [] 1 1 :=
  quit_and_nonquit_transitions [] 0 0 (Ev.key 'x') (by decide)

/-- Claim C7: `get_cpu_usage` triggers a CPU-specific refresh (the
resulting state holds the fresh per-core readings) and returns the
arithmetic mean of all logical-core utilization percentages; for every
provider reporting at least one core with per-core values in [0, 100]
the result is a finite value in [0, 100]. -/
theorem cpu_usage_mean_in_range (a : App) (freshCpus : List ℚ)
    (hne : freshCpus ≠ [])
    (hrange : ∀ x ∈ freshCpus, 0 ≤ x ∧ x ≤ 100) :
    (a.get_cpu_usage freshCpus).1
        = F32.val (freshCpus.sum / (freshCpus.length : ℚ))
    ∧ 0 ≤ freshCpus.sum / (freshCpus.length : ℚ)
    ∧ freshCpus.sum / (freshCpus.length : ℚ) ≤ 100
    ∧ ((a.get_cpu_usage freshCpus).2).system.cpus = freshCpus := by
  have hpos : 0 < (freshCpus.length : ℚ) := by
    exact_mod_cast List.length_pos.mpr hne
  have hsum0 : 0 ≤ freshCpus.sum :=
    List.sum_nonneg fun x hx => (hrange x hx).1
  have hsum100 : freshCpus.sum ≤ (freshCpus.length : ℚ) * 100 := by
    have := List.sum_le_card_nsmul freshCpus 100 fun x hx => (hrange x hx).2
    simpa [nsmul_eq_mul] using this
  refine ⟨?_, ?_, ?_, rfl⟩
  · simp [App.get_cpu_usage, refreshCpu, fdiv, hpos.ne']
  · exact div_nonneg hsum0 hpos.le
  · rw [div_le_iff₀ hpos]
    linarith
/-- Witness for C7: four cores at 10, 20, 30, 40 percent average to 25. -/
theorem cpu_usage_mean_in_range_witness :
    ((⟨⟨[], 8, 2⟩⟩ : App).get_cpu_usage [10, 20, 30, 40]).1 = F32.val 25 := by
  have h := cpu_usage_mean_in_range ⟨⟨[], 8, 2⟩⟩ [10, 20, 30, 40] (by simp)
    (by decide)
  rw [h.1]
  norm_num [List.sum_cons, List.sum_nil]

/-- Claim C8: `get_memory_usage` returns exactly `100 * used / total`
from the values of the last full refresh, leaving the provider state
untouched (no refresh is forced). -/
theorem memory_usage_formula (a : App) (h : a.system.totalMemory ≠ 0) :
    (a.get_memory_usage).1
        = F32.val (100 * (a.system.usedMemory : ℚ) / (a.system.totalMemory : ℚ))
    ∧ (a.get_memory_usage).2 = a := by
  have ht : ((a.system.totalMemory : ℚ)) ≠ 0 := Nat.cast_ne_zero.mpr h
  refine ⟨?_, rfl⟩
  simp only [App.get_memory_usage, fdiv, if_neg ht, fmul100]
  rw [F32.val.injEq]
  ring

/-- Witness for C8: used = 4294967296 and total = 8589934592 bytes give
a reading of exactly 50. -/
theorem memory_usage_formula_witness :
    ((⟨⟨[], 8589934592, 4294967296⟩⟩ : App).get_memory_usage).1 = F32.val 50 := by
  have h := memory_usage_formula ⟨⟨[], 8589934592, 4294967296⟩⟩ (by norm_num)
  rw [h.1]
  norm_num

/-- Claim C9: when setup succeeds, on every exit path of the loop —
clean quit or a drawing/event-read error (`runAppOk` false) — `main`
invokes `disable_raw_mode` exactly once and `LeaveAlternateScreen`
exactly once before reporting the result, and the exit code is 0 exactly
on a clean quit (assuming the teardown calls themselves succeed); a
setup failure exits non-zero. -/
theorem main_terminal_discipline (w : World) :
    (w.enableRawOk = true → w.enterAltOk = true → w.newTerminalOk = true →
      w.disableRawOk = true → w.leaveAltOk = true → w.showCursorOk = true →
      (mainRun w).trace.count Step.disableRaw = 1
      ∧ (mainRun w).trace.count Step.leaveAlt = 1
      ∧ ((mainRun w).exitCode = 0 ↔ w.runAppOk = true))
    ∧ (w.enableRawOk = false → (mainRun w).exitCode = 1) := by
  obtain ⟨e1, e2, e3, r, t1, t2, t3⟩ := w
  cases e1 <;> cases e2 <;> cases e3 <;> cases r <;> cases t1 <;> cases t2 <;>
    cases t3 <;> exact ⟨by decide, by decide⟩

/-- Witness for C9: with all terminal calls succeeding and a clean quit,
raw mode and the alternate screen are each released exactly once and the
exit code is 0; with `enable_raw_mode` failing, the exit code is 1. -/
theorem main_terminal_discipline_witness :
    ((mainRun ⟨true, true, true, true, true, true, true⟩).trace.count
        Step.disableRaw = 1
      ∧ (mainRun ⟨true, true, true, true, true, true, true⟩).trace.count
          Step.leaveAlt = 1
      ∧ ((mainRun ⟨true, true, true, true, true, true, true⟩).exitCode = 0
          ↔ true = true))
    ∧ (mainRun ⟨false, true, true, true, true, true, true⟩).exitCode = 1 :=
  ⟨(main_terminal_discipline ⟨true, true, true, true, true, true, true⟩).1
      rfl rfl rfl rfl rfl rfl,
   (main_terminal_discipline ⟨false, true, true, true, true, true, true⟩).2 rfl⟩

/-- Claim C10: `get_memory_usage` is a pure read — it leaves the `App`
unchanged, so two consecutive calls with no intervening refresh return
equal values. -/
theorem memory_usage_pure_read (a : App) :
    (a.get_memory_usage).2 = a
    ∧ ((a.get_memory_usage).2.get_memory_usage).1 = (a.get_memory_usage).1 :=
  ⟨rfl, rfl⟩

end SystemMonitor
